import Mathlib

/-
Shallow embedding of the message-handling core of the RabbitMQ → InfluxDB
bridge (src/main.py, class RabbitMQToInfluxBridge).  The two functions with
data-transformation content are `_message_callback` (main.py lines 175-201)
and `_transform_to_influx_point` (main.py lines 203-260); everything here
embeds those two functions and the values that flow through them.

External library calls are modelled as follows:
- `json.loads` / `body.decode` are modelled by indexing the message body by
  its parse outcome (`Body` below): a body is either valid UTF-8 text that
  parses as a JSON value, valid UTF-8 text that is not JSON (json.loads
  raises JSONDecodeError), or bytes that are not valid UTF-8 (decode raises
  UnicodeDecodeError, which is not a JSONDecodeError and therefore escapes
  the inner except clause of `_message_callback`).
- `datetime.fromisoformat` and `datetime.utcnow` are modelled as an oracle
  (`Env.iso`, returning nanoseconds since the Unix epoch on success) and a
  per-delivery wall-clock instant (`Env.now`), since their values depend on
  the runtime clock and the stdlib date parser.
- `write_api.write` either succeeds or raises; `Env.writeOk` records which.
- Python numbers are carried exactly (`PyNum`): a Python int as an
  arbitrary-precision integer, a Python float as the exact (dyadic
  rational) value of its IEEE-754 binary64 representation, kept as an
  unnormalised numerator/denominator pair.  The multiplication
  `t * 1000000000` in main.py line 217 is exact big-integer arithmetic for
  an int `t`; for a float `t` it is binary64 multiplication, modelled by
  rounding the exact product to the nearest double (round to nearest, ties
  to even, with subnormals and overflow) in `roundB64Pos` — 1000000000.0
  is exactly representable, so the exact product of the two operand
  doubles is the exact rational product.  A product that overflows to
  infinity makes `int()` raise, which the bare `except:` at line 222 turns
  into the `utcnow` fallback.  CPython's json also accepts the non-finite
  literals NaN/Infinity; they are outside the model, and at line 217 they
  too make `int()` raise and fall back to `utcnow`.
-/

/-- A Python number: an int (arbitrary precision, exact), or a float
carried at the exact rational value of its IEEE-754 binary64
representation, as an unnormalised `num / den` (for an actual double this
is a dyadic rational with `den` a power of two). -/
inductive PyNum where
  | pint (n : Int)
  | pfloat (num : Int) (den : Nat)
deriving DecidableEq

/-- The exact mathematical value of a `PyNum`, for stating claims about
"exact" arithmetic. -/
def PyNum.toRat : PyNum → ℚ
  | PyNum.pint n => (n : ℚ)
  | PyNum.pfloat num den => (num : ℚ) / (den : ℚ)

/-- A Python value as produced by `json.loads` (main.py line 180): number,
boolean, string, None, list, or dict.  Dict entries are listed in the
dict's iteration order (= insertion order = document order), with keys
assumed distinct, as `json.loads` produces. -/
inductive JVal where
  | num (x : PyNum)
  | jbool (b : Bool)
  | jstr (s : String)
  | jnull
  | arr (elems : List JVal)
  | obj (entries : List (String × JVal))

/-- An InfluxDB field value as passed to `point.field` in main.py lines
249-254: a number kept numeric, a boolean kept boolean, or a string. -/
inductive FieldVal where
  | fnum (x : PyNum)
  | fbool (b : Bool)
  | fstr (s : String)
deriving DecidableEq

/-- An InfluxDB `Point` as assembled by `_transform_to_influx_point`
(main.py lines 203-260): measurement name, instant (nanoseconds since the
Unix epoch), tags and fields.  The tag and field lists record the calls to
`point.tag` / `point.field` in program order; the underlying client stores
them in dicts, so the observable value at a key is the last write
(`lastLookup` below). -/
structure Point where
  measurement : String
  time : Int
  tags : List (String × String)
  fields : List (String × FieldVal)
deriving DecidableEq

/-- One entry of the `topics` configuration list, as read by
`_transform_to_influx_point` and `_message_callback`:
`measurement` (main.py line 207), `tags` (line 230), `field_mapping`
(line 239), `influx_bucket` (line 190).  `Option.none` models a key that is
absent or holds YAML null (`dict.get` returns `None` in both cases). -/
structure TopicConfig where
  measurement : Option String
  tags : List (String × String)
  field_mapping : List (String × String)
  influx_bucket : Option String
deriving DecidableEq

/-- The delivery metadata (`method` in main.py): routing key, exchange and
delivery tag of one delivery. -/
structure Method where
  routingKey : String
  exchange : String
  deliveryTag : Nat
deriving DecidableEq

/-- Per-delivery environment for the external collaborators:
`iso s` is the result of `datetime.fromisoformat s` (main.py line 220)
converted to nanoseconds since the epoch, `none` when it raises;
`now` is `datetime.utcnow()` (lines 224, 227) at processing time, in
nanoseconds since the epoch; `writeOk` is whether `write_api.write`
(line 191) returns normally rather than raising. -/
structure Env where
  iso : String → Option Int
  now : Int
  writeOk : Bool

/-- A message body, indexed by the outcome of `body.decode('utf-8')` and
`json.loads` on it (main.py lines 179-183). -/
inductive Body where
  | jsonOf (v : JVal)
  | nonJson (text : String)
  | invalidUtf8

/-- The exception escaping the parse step when the body is not valid
UTF-8: `bytes.decode` raises UnicodeDecodeError, which is not a
`json.JSONDecodeError` and so is not caught at main.py line 181. -/
inductive PyErr where
  | unicodeDecodeError
deriving DecidableEq

/-- One observable broker/store action performed by `_message_callback`:
`channel.basic_ack` (line 196), `channel.basic_nack(..., requeue=True)`
(line 201), or a call to `write_api.write(bucket=..., record=...)`
(line 191). -/
inductive BrokerAction where
  | ack (tag : Nat)
  | nack (tag : Nat) (requeue : Bool)
  | write (bucket : String) (p : Point)
deriving DecidableEq

/-- `method.routing_key.replace('.', '_')` (main.py line 207).  The pattern
is the single character `.`; replacing a one-character pattern is exactly a
per-character substitution. -/
def sanitize (s : String) : String :=
  String.mk (s.data.map fun c => if c = '.' then '_' else c)

/-- `message_data['timestamp'].replace('Z', '+00:00')` (main.py line 220).
Python `str.replace` replaces every occurrence of the one-character
pattern `Z`, i.e. substitutes per character. -/
def replaceZ (s : String) : String :=
  String.mk (s.data.flatMap fun c => if c = 'Z' then "+00:00".data else [c])

/-- Bit length of a natural number (0 for 0, otherwise ⌊log2 n⌋ + 1),
written with an explicit fuel argument so the kernel can evaluate it;
`fuel ≥ n` suffices since the number of halvings is at most `n`. -/
def bitLen : Nat → Nat → Nat
  | 0, _ => 0
  | fuel + 1, n => if n = 0 then 0 else bitLen fuel (n / 2) + 1

/-- Whether `2 ^ e ≤ a / b` for positive `a b`, by clearing the power of
two to the appropriate side. -/
def pow2Le (e : Int) (a b : Nat) : Bool :=
  match e with
  | Int.ofNat k => decide (b * 2 ^ k ≤ a)
  | Int.negSucc k => decide (b ≤ a * 2 ^ (k + 1))

/-- `⌊log2 (a / b)⌋` for positive `a b`: the bit-length difference is off
by at most one, and a single comparison fixes it up. -/
def floorLog2 (a b : Nat) : Int :=
  let e0 : Int := (bitLen a a : Int) - (bitLen b b : Int)
  if pow2Le e0 a b then e0 else e0 - 1

/-- Round the nonnegative rational `a / b` (with `b ≠ 0`) to the nearest
integer, ties to even. -/
def rne (a b : Nat) : Nat :=
  let q := a / b
  let r := a % b
  if 2 * r < b then q
  else if b < 2 * r then q + 1
  else if q % 2 = 0 then q else q + 1

/-- Round the positive rational `a / b` (with `b ≠ 0`) to the nearest
IEEE-754 binary64 value (round to nearest, ties to even), returned as an
exact numerator/denominator pair; `none` is overflow to infinity.  The
unit in the last place has exponent `⌊log2 (a/b)⌋ - 52` for normal
results, clamped at `-1074` for subnormals; a magnitude reaching `2^1024`
after rounding — equivalently, one whose bit length is at least 1025 —
overflows (this includes the round-to-infinity of values within half an
ulp below `2^1024`, since the rounded significand then reaches `2^53` at
exponent `971`). -/
def roundB64Pos (a b : Nat) : Option (Nat × Nat) :=
  if a = 0 then some (0, 1) else
  let p0 : Int := floorLog2 a b - 52
  let p : Int := if p0 < -1074 then -1074 else p0
  match p with
  | Int.ofNat k =>
      let v := rne a (b * 2 ^ k) * 2 ^ k
      if 1025 ≤ bitLen v v then none else some (v, 1)
  | Int.negSucc k =>
      some (rne (a * 2 ^ (k + 1)) b, 2 ^ (k + 1))

/-- The binary64 product `t * 1000000000.0` for a float `t` of exact value
`num / den` (main.py line 217): `1000000000.0` is exactly representable,
so the exact product of the two doubles is `num·10^9 / den`, and the
multiplication rounds it to the nearest double.  `none` is overflow to
±infinity. -/
def mulBillionFloat (num : Int) (den : Nat) : Option (Int × Nat) :=
  match roundB64Pos (num.natAbs * 1000000000) den with
  | none => none
  | some md => some (if num < 0 then -(md.1 : Int) else (md.1 : Int), md.2)

/-- Python `int()` of a finite float of exact value `num / den`:
truncation toward zero. -/
def truncFrac (y : Int × Nat) : Int := Int.tdiv y.1 (y.2 : Int)

/-- `int(message_data['timestamp'] * 1000000000)` (main.py line 217) for a
numeric timestamp: exact big-integer arithmetic for a Python int; for a
float, binary64 multiplication followed by truncation toward zero.  When
the product overflows to infinity, `int()` raises OverflowError, which the
bare `except:` at line 222 turns into the `datetime.utcnow()` fallback. -/
def numericInstant (env : Env) : PyNum → Int
  | PyNum.pint n => n * 1000000000
  | PyNum.pfloat num den =>
      match mulBillionFloat num den with
      | some y => truncFrac y
      | none => env.now

/-- ASCII apostrophe, used by the Python `repr` of strings. -/
def quoteChar : Char := Char.ofNat 39

mutual
/-- Python `repr`, used by `str` on containers (elements of lists/dicts are
rendered with `repr`).  Number rendering and string escaping are
approximated (Python renders floats with shortest-roundtrip notation and
escapes quotes); no claim below depends on the rendering of a container or
of a number, only on `str` of a string being the string itself. -/
def pyRepr : JVal → String
  | JVal.num (PyNum.pint n) => toString n
  | JVal.num (PyNum.pfloat a b) => toString a ++ "/" ++ toString b
  | JVal.jbool b => if b then "True" else "False"
  | JVal.jstr s => String.mk (quoteChar :: s.data) ++ String.mk [quoteChar]
  | JVal.jnull => "None"
  | JVal.arr xs => "[" ++ pyReprList xs ++ "]"
  | JVal.obj kvs => "\x7b" ++ pyReprEntries kvs ++ "\x7d"

/-- Comma-separated `repr`s of the elements of a Python list. -/
def pyReprList : List JVal → String
  | [] => ""
  | [v] => pyRepr v
  | v :: rest => pyRepr v ++ ", " ++ pyReprList rest

/-- Comma-separated `repr`s of the entries of a Python dict. -/
def pyReprEntries : List (String × JVal) → String
  | [] => ""
  | [kv] => String.mk (quoteChar :: kv.1.data) ++ String.mk [quoteChar] ++ ": " ++ pyRepr kv.2
  | kv :: rest =>
      String.mk (quoteChar :: kv.1.data) ++ String.mk [quoteChar] ++ ": " ++ pyRepr kv.2
        ++ ", " ++ pyReprEntries rest
end

/-- Python `str(value)` (main.py line 254): the identity on strings, `repr`
on everything else reaching that branch (`None`, lists, dicts). -/
def pyStr : JVal → String
  | JVal.jstr s => s
  | v => pyRepr v

/-- Destination field name for a parsed-object key:
`field_mapping.get(key, key)` (main.py line 246). -/
def destName (cfg : TopicConfig) (k : String) : String :=
  (cfg.field_mapping.lookup k).getD k

/-- `topic_config.get('measurement') or method.routing_key.replace('.', '_')`
(main.py line 207).  Python `or` takes the right operand when the left is
falsy, i.e. when the key is absent/None or holds the empty string. -/
def measurementOf (cfg : TopicConfig) (m : Method) : String :=
  match cfg.measurement with
  | some s => if s = "" then sanitize m.routingKey else s
  | none => sanitize m.routingKey

/-- The field value for one parsed-object value (main.py lines 249-254):
`isinstance(value, (int, float))` keeps numbers numeric — in Python this
branch also catches `bool`, since `bool` is a subclass of `int`, and keeps
the boolean value unchanged, which coincides with the dedicated
`isinstance(value, bool)` branch; everything else is passed through
`str`. -/
def fieldValue : JVal → FieldVal
  | JVal.num x => FieldVal.fnum x
  | JVal.jbool b => FieldVal.fbool b
  | v => FieldVal.fstr (pyStr v)

/-- The instant assigned to the point (main.py lines 212-227), given the
parsed object's entries:
- a numeric `timestamp` `t` (int or float; Python `bool` also passes the
  `isinstance(..., (int, float))` test) gives `int(t * 1000000000)` via
  `numericInstant` — exact for ints, binary64-rounded for floats;
- a string `timestamp` is fed, with every `Z` replaced by `+00:00`, to
  `datetime.fromisoformat`; its value on success, else (bare `except:` at
  line 222) `datetime.utcnow()`;
- a `timestamp` of any other type makes `.replace` raise AttributeError,
  caught by the same bare `except:` — `datetime.utcnow()`;
- no `timestamp` key — `datetime.utcnow()` (line 227). -/
def timeOf (env : Env) (kvs : List (String × JVal)) : Int :=
  match kvs.lookup "timestamp" with
  | some (JVal.num x) => numericInstant env x
  | some (JVal.jbool b) => (if b then 1 else 0) * 1000000000
  | some (JVal.jstr s) => (env.iso (replaceZ s)).getD env.now
  | some _ => env.now
  | none => env.now

/-- The tag list of the point, in the order the `point.tag` calls occur
(main.py lines 229-236): first the subscription's static tags, then
`routing_key`, then `exchange`. -/
def tagsOf (cfg : TopicConfig) (m : Method) : List (String × String) :=
  cfg.tags ++ [("routing_key", m.routingKey), ("exchange", m.exchange)]

/-- One iteration of the field loop (main.py lines 241-254): skip the
`timestamp` key, otherwise append the renamed, typed field. -/
def fieldStep (cfg : TopicConfig) (acc : List (String × FieldVal)) (kv : String × JVal) :
    List (String × FieldVal) :=
  if kv.1 = "timestamp" then acc else acc ++ [(destName cfg kv.1, fieldValue kv.2)]

/-- The field list of the point: the loop of main.py lines 241-254 over the
parsed object's entries in iteration order. -/
def fieldsOf (cfg : TopicConfig) (kvs : List (String × JVal)) : List (String × FieldVal) :=
  List.foldl (fieldStep cfg) [] kvs

/-- `_transform_to_influx_point` (main.py lines 203-260).  When
`message_data` is a dict, the body of the outer `try` runs to completion
and returns the assembled point.  When it is any other value produced by
`json.loads`, an exception is raised and caught at line 258 and the
function returns `None`: for numbers, booleans and `None`,
`'timestamp' in message_data` (line 213) raises TypeError; for strings and
lists, `message_data.items()` (line 241) raises AttributeError (a string or
list `timestamp` membership test at line 213 can succeed, and a subscript
error at line 216 is absorbed by the bare `except:`, but the `.items()`
call still raises).  No partial point escapes. -/
def transform (env : Env) (message_data : JVal) (cfg : TopicConfig) (m : Method) :
    Option Point :=
  match message_data with
  | JVal.obj kvs => some ⟨measurementOf cfg m, timeOf env kvs, tagsOf cfg m, fieldsOf cfg kvs⟩
  | _ => none

/-- `topic_config.get('influx_bucket') or self.config['influxdb']['bucket']`
(main.py line 190): the per-topic bucket when it is a truthy (non-empty)
string, otherwise the global default bucket. -/
def chooseBucket (cfg : TopicConfig) (defaultBucket : String) : String :=
  match cfg.influx_bucket with
  | some s => if s = "" then defaultBucket else s
  | none => defaultBucket

/-- The parse step of `_message_callback` (main.py lines 179-183):
`json.loads(body.decode('utf-8'))`, falling back to
`{'raw_message': body.decode('utf-8')}` on JSONDecodeError.  A body that is
not valid UTF-8 makes `decode` raise UnicodeDecodeError, which the
`except json.JSONDecodeError` clause does not catch. -/
def parseMessage : Body → Except PyErr JVal
  | Body.jsonOf v => Except.ok v
  | Body.nonJson text => Except.ok (JVal.obj [("raw_message", JVal.jstr text)])
  | Body.invalidUtf8 => Except.error PyErr.unicodeDecodeError

/-- `_message_callback` (main.py lines 175-201), as the sequence of broker
and store actions it performs on one delivery:
- parse failure (non-UTF-8 body) escapes to the outer `except` — a single
  `basic_nack(..., requeue=True)`;
- a `None` point skips the `if point:` block — a single `basic_ack`;
- a built point is written to the chosen bucket; if the write raises, the
  outer `except` nacks with requeue, else the callback falls through to the
  `basic_ack` at line 196. -/
def messageCallback (env : Env) (body : Body) (cfg : TopicConfig) (m : Method)
    (defaultBucket : String) : List BrokerAction :=
  match parseMessage body with
  | Except.error _ => [BrokerAction.nack m.deliveryTag true]
  | Except.ok md =>
    match transform env md cfg m with
    | some p =>
        BrokerAction.write (chooseBucket cfg defaultBucket) p ::
          (if env.writeOk then [BrokerAction.ack m.deliveryTag] else [BrokerAction.nack m.deliveryTag true])
    | none => [BrokerAction.ack m.deliveryTag]

/-- Last-write-wins association lookup: the value attached to the latest
occurrence of a key, i.e. the observable content of the Python dicts that
back the point's tags and fields. -/
def lastMatch (p : α → Bool) (f : α → β) : List α → Option β
  | [] => none
  | x :: rest => (lastMatch p f rest).or (if p x then some (f x) else none)

/-- The value a key holds in a last-write-wins association list. -/
def lastLookup (l : List (String × α)) (k : String) : Option α :=
  lastMatch (fun kv => kv.1 == k) (fun kv => kv.2) l

/-- Recognizer for `basic_ack` actions. -/
def isAck : BrokerAction → Bool
  | BrokerAction.ack _ => true
  | _ => false

/-- Recognizer for `basic_nack` actions. -/
def isNack : BrokerAction → Bool
  | BrokerAction.nack _ _ => true
  | _ => false

/-- Recognizer for store-write actions. -/
def isWrite : BrokerAction → Bool
  | BrokerAction.write _ _ => true
  | _ => false

/-- Folding the field loop from any accumulator prepends the accumulator. -/
lemma foldl_fieldStep_acc (cfg : TopicConfig) (kvs : List (String × JVal))
    (acc : List (String × FieldVal)) :
    List.foldl (fieldStep cfg) acc kvs = acc ++ List.foldl (fieldStep cfg) [] kvs := by
  induction kvs generalizing acc with
  | nil => simp
  | cons kv rest ih =>
      simp only [List.foldl_cons]
      rw [ih, ih (fieldStep cfg [] kv)]
      unfold fieldStep
      by_cases h : kv.1 = "timestamp" <;> simp [h]

/-- One step of the field loop, seen on the resulting list. -/
lemma fieldsOf_cons (cfg : TopicConfig) (kv : String × JVal) (rest : List (String × JVal)) :
    fieldsOf cfg (kv :: rest) =
      (if kv.1 = "timestamp" then [] else [(destName cfg kv.1, fieldValue kv.2)])
        ++ fieldsOf cfg rest := by
  unfold fieldsOf
  simp only [List.foldl_cons]
  rw [foldl_fieldStep_acc]
  unfold fieldStep
  by_cases h : kv.1 = "timestamp" <;> simp [h]

/-- Later entries win across a concatenation of last-write-wins lists. -/
lemma lastMatch_append (p : α → Bool) (f : α → β) (l₁ l₂ : List α) :
    lastMatch p f (l₁ ++ l₂) = (lastMatch p f l₂).or (lastMatch p f l₁) := by
  induction l₁ with
  | nil => simp [lastMatch]
  | cons x rest ih =>
      simp only [List.cons_append, lastMatch, List.append_eq, ih, Option.or_assoc]

/-- The observable value of a destination field name: the value carried by
the last parsed-object entry (in iteration order) that is not `timestamp`
and whose destination name is the one looked up.  This is the
last-write-wins semantics of the dict backing `point.field`. -/
lemma lastLookup_fieldsOf (cfg : TopicConfig) (kvs : List (String × JVal)) (d : String) :
    lastLookup (fieldsOf cfg kvs) d =
      lastMatch (fun kv => !(kv.1 == "timestamp") && (destName cfg kv.1 == d))
        (fun kv => fieldValue kv.2) kvs := by
  induction kvs with
  | nil => rfl
  | cons kv rest ih =>
      rw [fieldsOf_cons]
      unfold lastLookup at ih ⊢
      rw [lastMatch_append]
      simp only [lastMatch, ih]
      by_cases hts : kv.1 = "timestamp"
      · simp [hts, lastMatch]
      · have hb : (kv.1 == "timestamp") = false := by simp [hts]
        by_cases hd : destName cfg kv.1 = d
        · simp [hts, hb, hd, lastMatch]
        · have hd2 : (destName cfg kv.1 == d) = false := by simp [hd]
          simp [hts, hb, hd2, lastMatch]

/-- Replacing `.` by `_` never empties a non-empty routing key. -/
lemma sanitize_ne_empty (s : String) (h : s ≠ "") : sanitize s ≠ "" := by
  intro hc
  apply h
  have hdata : (sanitize s).data = [] := by rw [hc]
  unfold sanitize at hdata
  simp only [String.data] at hdata
  rw [List.map_eq_nil_iff] at hdata
  cases s with
  | mk l => simp only at hdata; rw [hdata]

/-- Characters other than `Z` pass through the `Z → +00:00` substitution. -/
lemma flatMap_zstep_id (l : List Char) (h : ∀ c ∈ l, c ≠ 'Z') :
    (l.flatMap fun c => if c = 'Z' then "+00:00".data else [c]) = l := by
  induction l with
  | nil => rfl
  | cons c rest ih =>
      have hc : c ≠ 'Z' := h c (by simp)
      simp only [List.flatMap_cons, if_neg hc, List.singleton_append]
      rw [ih fun d hd => h d (by simp [hd])]

/-- C1, as stated, is false of the code: when `_transform_to_influx_point`
fails it catches its own exception and returns `None` (main.py lines
258-260), so `_message_callback` skips the `if point:` block and falls
through to `basic_ack` (line 196).  Concretely, for the body `42` (valid
JSON that is not an object) the transform fails, yet the delivery is
acknowledged and never rejected. -/
theorem c1_counterexample :
    transform ⟨fun _ => none, 0, true⟩ (JVal.num (PyNum.pint 42)) ⟨none, [], [], none⟩ ⟨"a.b", "ex", 7⟩
        = none
    ∧ messageCallback ⟨fun _ => none, 0, true⟩ (Body.jsonOf (JVal.num (PyNum.pint 42)))
        ⟨none, [], [], none⟩ ⟨"a.b", "ex", 7⟩ "bkt" = [BrokerAction.ack 7]
    ∧ (messageCallback ⟨fun _ => none, 0, true⟩ (Body.jsonOf (JVal.num (PyNum.pint 42)))
        ⟨none, [], [], none⟩ ⟨"a.b", "ex", 7⟩ "bkt").countP isNack = 0 :=
  ⟨rfl, rfl, rfl⟩

/-- C1 (amended): for every delivery whose body parses but whose
transformation fails, the transform returns no Point, the write is
skipped, and the bridge acknowledges the delivery — it is never rejected
and no requeue is requested. -/
theorem c1_transform_failure_is_acked (env : Env) (body : Body) (cfg : TopicConfig)
    (m : Method) (b : String) (md : JVal)
    (hparse : parseMessage body = Except.ok md)
    (hfail : transform env md cfg m = none) :
    messageCallback env body cfg m b = [BrokerAction.ack m.deliveryTag]
    ∧ (messageCallback env body cfg m b).countP isNack = 0
    ∧ (messageCallback env body cfg m b).countP isWrite = 0 := by
  refine ⟨?_, ?_, ?_⟩ <;> simp [messageCallback, hparse, hfail, isNack, isWrite]

/-- Witness for `c1_transform_failure_is_acked` at a concrete delivery:
body is the JSON string `"hi"`, which parses but is not object-shaped. -/
theorem c1_witness :
    parseMessage (Body.jsonOf (JVal.jstr "hi")) = Except.ok (JVal.jstr "hi")
    ∧ transform ⟨fun _ => none, 5, true⟩ (JVal.jstr "hi") ⟨none, [], [], none⟩ ⟨"k", "e", 3⟩
        = none
    ∧ messageCallback ⟨fun _ => none, 5, true⟩ (Body.jsonOf (JVal.jstr "hi"))
        ⟨none, [], [], none⟩ ⟨"k", "e", 3⟩ "B" = [BrokerAction.ack 3]
    ∧ (messageCallback ⟨fun _ => none, 5, true⟩ (Body.jsonOf (JVal.jstr "hi"))
        ⟨none, [], [], none⟩ ⟨"k", "e", 3⟩ "B").countP isNack = 0 :=
  ⟨rfl, rfl,
    (c1_transform_failure_is_acked ⟨fun _ => none, 5, true⟩ (Body.jsonOf (JVal.jstr "hi"))
      ⟨none, [], [], none⟩ ⟨"k", "e", 3⟩ "B" (JVal.jstr "hi") rfl rfl).1,
    (c1_transform_failure_is_acked ⟨fun _ => none, 5, true⟩ (Body.jsonOf (JVal.jstr "hi"))
      ⟨none, [], [], none⟩ ⟨"k", "e", 3⟩ "B" (JVal.jstr "hi") rfl rfl).2.1⟩

/-- C2: a delivery whose body parses successfully but whose transformation
yields no Point is still acknowledged — the broker-level outcome is
"point is null, still ack": the callback performs exactly one
`basic_ack` and nothing else. -/
theorem c2_null_point_still_acked (env : Env) (body : Body) (cfg : TopicConfig)
    (m : Method) (b : String) (md : JVal)
    (hparse : parseMessage body = Except.ok md)
    (hfail : transform env md cfg m = none) :
    (messageCallback env body cfg m b).countP isAck = 1
    ∧ messageCallback env body cfg m b = [BrokerAction.ack m.deliveryTag] := by
  refine ⟨?_, ?_⟩ <;> simp [messageCallback, hparse, hfail, isAck]

/-- Witness for `c2_null_point_still_acked`: body is the JSON array `[]`,
which parses but is not object-shaped, so the transform yields no Point. -/
theorem c2_witness :
    parseMessage (Body.jsonOf (JVal.arr [])) = Except.ok (JVal.arr [])
    ∧ transform ⟨fun _ => none, 0, false⟩ (JVal.arr []) ⟨none, [], [], none⟩ ⟨"q", "e", 9⟩
        = none
    ∧ (messageCallback ⟨fun _ => none, 0, false⟩ (Body.jsonOf (JVal.arr []))
        ⟨none, [], [], none⟩ ⟨"q", "e", 9⟩ "B").countP isAck = 1 :=
  ⟨rfl, rfl,
    (c2_null_point_still_acked ⟨fun _ => none, 0, false⟩ (Body.jsonOf (JVal.arr []))
      ⟨none, [], [], none⟩ ⟨"q", "e", 9⟩ "B" (JVal.arr []) rfl rfl).1⟩

/-- C3: for a delivery with a successfully built Point, a raising store
write makes the callback reject the delivery with requeue enabled and
never acknowledge it; a successful write makes it acknowledge exactly once
and never reject. -/
theorem c3_write_outcome (env : Env) (body : Body) (cfg : TopicConfig)
    (m : Method) (b : String) (md : JVal) (p : Point)
    (hparse : parseMessage body = Except.ok md)
    (hp : transform env md cfg m = some p) :
    (env.writeOk = false →
        messageCallback env body cfg m b
          = [BrokerAction.write (chooseBucket cfg b) p, BrokerAction.nack m.deliveryTag true]
        ∧ (messageCallback env body cfg m b).countP isAck = 0)
    ∧ (env.writeOk = true →
        messageCallback env body cfg m b
          = [BrokerAction.write (chooseBucket cfg b) p, BrokerAction.ack m.deliveryTag]
        ∧ (messageCallback env body cfg m b).countP isAck = 1
        ∧ (messageCallback env body cfg m b).countP isNack = 0) := by
  constructor
  · intro hw
    refine ⟨?_, ?_⟩ <;> simp [messageCallback, hparse, hp, hw, isAck]
  · intro hw
    refine ⟨?_, ?_, ?_⟩ <;> simp [messageCallback, hparse, hp, hw, isAck, isNack]

/-- Witness for `c3_write_outcome`: an empty JSON object delivered on
routing key `a.b` while the store write raises — the callback attempts the
write and then nacks with requeue, acknowledging nothing. -/
theorem c3_witness :
    parseMessage (Body.jsonOf (JVal.obj [])) = Except.ok (JVal.obj [])
    ∧ transform ⟨fun _ => none, 0, false⟩ (JVal.obj []) ⟨none, [], [], none⟩ ⟨"a.b", "ex", 4⟩
        = some ⟨"a_b", 0, [("routing_key", "a.b"), ("exchange", "ex")], []⟩
    ∧ messageCallback ⟨fun _ => none, 0, false⟩ (Body.jsonOf (JVal.obj []))
        ⟨none, [], [], none⟩ ⟨"a.b", "ex", 4⟩ "B"
        = [BrokerAction.write "B" ⟨"a_b", 0, [("routing_key", "a.b"), ("exchange", "ex")], []⟩,
            BrokerAction.nack 4 true] :=
  ⟨rfl, by decide,
    ((c3_write_outcome ⟨fun _ => none, 0, false⟩ (Body.jsonOf (JVal.obj []))
      ⟨none, [], [], none⟩ ⟨"a.b", "ex", 4⟩ "B" (JVal.obj [])
      ⟨"a_b", 0, [("routing_key", "a.b"), ("exchange", "ex")], []⟩ rfl (by decide)).1 rfl).1⟩

/-- C4, as stated, is false of the code: the parse step can fail, and a
valid-JSON non-object body is not replaced by the `raw_message` fallback.
A body that is not valid UTF-8 makes `body.decode('utf-8')` raise a
UnicodeDecodeError, which `except json.JSONDecodeError` (main.py line 181)
does not catch, so the delivery is rejected-with-requeue; and the JSON
array body `[]` parses, is passed through unchanged, and produces no
`raw_message` field (the transform fails and no Point is built). -/
theorem c4_counterexample :
    parseMessage Body.invalidUtf8 = Except.error PyErr.unicodeDecodeError
    ∧ messageCallback ⟨fun _ => none, 0, true⟩ Body.invalidUtf8 ⟨none, [], [], none⟩
        ⟨"k", "e", 11⟩ "B" = [BrokerAction.nack 11 true]
    ∧ parseMessage (Body.jsonOf (JVal.arr [])) = Except.ok (JVal.arr [])
    ∧ transform ⟨fun _ => none, 0, true⟩ (JVal.arr []) ⟨none, [], [], none⟩ ⟨"k", "e", 11⟩
        = none :=
  ⟨rfl, rfl, rfl, rfl⟩

/-- C4 (amended): only a body that is valid UTF-8 text but not valid JSON
is replaced by the single-key fallback object; for such a body (and a
subscription that does not rename `raw_message`) the resulting field set
is exactly `raw_message ↦ <body text>`.  A body that is not valid UTF-8
makes the parse step raise (the decode error is not a JSONDecodeError),
and valid JSON of any shape is passed through unchanged. -/
theorem c4_parse_fallback (env : Env) (cfg : TopicConfig) (m : Method) (t : String) (p : Point)
    (hmap : cfg.field_mapping.lookup "raw_message" = none)
    (hp : transform env (JVal.obj [("raw_message", JVal.jstr t)]) cfg m = some p) :
    parseMessage (Body.nonJson t) = Except.ok (JVal.obj [("raw_message", JVal.jstr t)])
    ∧ p.fields = [("raw_message", FieldVal.fstr t)]
    ∧ parseMessage Body.invalidUtf8 = Except.error PyErr.unicodeDecodeError
    ∧ (∀ v : JVal, parseMessage (Body.jsonOf v) = Except.ok v) := by
  simp only [transform, Option.some.injEq] at hp
  subst hp
  refine ⟨rfl, ?_, rfl, fun v => rfl⟩
  simp [fieldsOf, fieldStep, destName, hmap, fieldValue, pyStr]

/-- Witness for `c4_parse_fallback`: the non-JSON body `hello` delivered
on routing key `t.raw` with an empty rename map. -/
theorem c4_witness :
    ((⟨none, [], [], none⟩ : TopicConfig).field_mapping.lookup "raw_message" = none)
    ∧ transform ⟨fun _ => none, 0, true⟩ (JVal.obj [("raw_message", JVal.jstr "hello")])
        ⟨none, [], [], none⟩ ⟨"t.raw", "e", 2⟩
        = some ⟨"t_raw", 0, [("routing_key", "t.raw"), ("exchange", "e")],
            [("raw_message", FieldVal.fstr "hello")]⟩
    ∧ (⟨"t_raw", 0, [("routing_key", "t.raw"), ("exchange", "e")],
          [("raw_message", FieldVal.fstr "hello")]⟩ : Point).fields
        = [("raw_message", FieldVal.fstr "hello")] :=
  ⟨rfl, by decide,
    (c4_parse_fallback ⟨fun _ => none, 0, true⟩ ⟨none, [], [], none⟩ ⟨"t.raw", "e", 2⟩ "hello"
      ⟨"t_raw", 0, [("routing_key", "t.raw"), ("exchange", "e")],
        [("raw_message", FieldVal.fstr "hello")]⟩ rfl (by decide)).2.1⟩

/-- C5, as stated, is false of the code in two ways.  First,
`int(t * 1000000000)` (main.py line 217) truncates toward zero: for
`t = 1/1024` (the float `0.0009765625`, whose binary64 product with 1e9
is exactly `976562.5`) the instant is `976562` ns, not `976562.5` ns.
Second, the float multiplication itself rounds: for
`t = (2^53 - 1)/512` (an exactly representable double) the exact product
`t × 1e9 = 17592186044415998046875` is a whole number of nanoseconds, yet
binary64 rounding of the product yields the instant
`17592186044415997902848` — off by 144027 ns. -/
theorem c5_counterexample :
    Option.map Point.time (transform ⟨fun _ => none, 0, true⟩
        (JVal.obj [("timestamp", JVal.num (PyNum.pfloat 1 1024))])
        ⟨none, [], [], none⟩ ⟨"k", "e", 1⟩)
      = some 976562
    ∧ ¬ (((976562 : Int) : ℚ) = PyNum.toRat (PyNum.pfloat 1 1024) * 1000000000)
    ∧ Option.map Point.time (transform ⟨fun _ => none, 0, true⟩
        (JVal.obj [("timestamp", JVal.num (PyNum.pfloat 9007199254740991 512))])
        ⟨none, [], [], none⟩ ⟨"k", "e", 1⟩)
      = some 17592186044415997902848
    ∧ PyNum.toRat (PyNum.pfloat 9007199254740991 512) * 1000000000
        = ((17592186044415998046875 : Int) : ℚ)
    ∧ (17592186044415997902848 : Int) ≠ 17592186044415998046875 := by
  refine ⟨by decide, ?_, by decide, ?_, by decide⟩
  · intro h
    norm_num [PyNum.toRat] at h
  · norm_num [PyNum.toRat]

/-- C5 (amended): a numeric `timestamp` value `t` yields the instant
`int(t × 1e9)`.  For a Python int `t` the product is exact big-integer
arithmetic and the instant equals `t × 1e9` exactly.  For a Python float
`t` the product is first rounded to the nearest IEEE-754 double and then
truncated toward zero, so the instant is in general neither `t × 1e9` nor
fractional-preserving, even when `t × 1e9` is a whole number of
nanoseconds (see `c5_counterexample`); a product that overflows to
infinity makes `int()` raise and falls back to the wall-clock instant. -/
theorem c5_numeric_timestamp (env : Env) (cfg : TopicConfig) (m : Method)
    (kvs : List (String × JVal)) (x : PyNum) (p : Point)
    (hts : kvs.lookup "timestamp" = some (JVal.num x))
    (hp : transform env (JVal.obj kvs) cfg m = some p) :
    p.time = numericInstant env x
    ∧ (∀ n : Int, x = PyNum.pint n → p.time = n * 1000000000)
    ∧ (∀ n : Int, x = PyNum.pint n → ((p.time : Int) : ℚ) = x.toRat * 1000000000)
    ∧ (∀ num : Int, ∀ den : Nat, x = PyNum.pfloat num den →
        p.time = match mulBillionFloat num den with
          | some y => truncFrac y
          | none => env.now) := by
  simp only [transform, Option.some.injEq] at hp
  subst hp
  refine ⟨by simp [timeOf, hts], ?_, ?_, ?_⟩
  · intro n hn
    subst hn
    simp [timeOf, hts, numericInstant]
  · intro n hn
    subst hn
    simp only [timeOf, hts, numericInstant, PyNum.toRat]
    push_cast
    ring
  · intro num den hn
    subst hn
    simp [timeOf, hts, numericInstant]

/-- Witness for `c5_numeric_timestamp`: the integer timestamp `5` yields
exactly `5000000000` ns. -/
theorem c5_witness :
    ([("timestamp", JVal.num (PyNum.pint 5))] : List (String × JVal)).lookup "timestamp"
        = some (JVal.num (PyNum.pint 5))
    ∧ transform ⟨fun _ => none, 0, true⟩
        (JVal.obj [("timestamp", JVal.num (PyNum.pint 5))])
        ⟨none, [], [], none⟩ ⟨"k", "e", 1⟩
        = some ⟨"k", 5000000000, [("routing_key", "k"), ("exchange", "e")], []⟩
    ∧ (⟨"k", 5000000000, [("routing_key", "k"), ("exchange", "e")], []⟩ : Point).time
        = (5 : Int) * 1000000000 :=
  ⟨rfl, by decide,
    (c5_numeric_timestamp ⟨fun _ => none, 0, true⟩ ⟨none, [], [], none⟩ ⟨"k", "e", 1⟩
      [("timestamp", JVal.num (PyNum.pint 5))] (PyNum.pint 5)
      ⟨"k", 5000000000, [("routing_key", "k"), ("exchange", "e")], []⟩
      rfl (by decide)).2.1 5 rfl⟩

/-- C6, as stated, is false of the code: when the subscription has no
measurement override and the delivery's routing key is the empty string
(legal on the default or a fanout exchange), the sanitized routing key is
empty and the point's measurement name is empty.  Also, an override that
is present but empty is falsy under Python `or` and is not used.  The
amended per-case behaviour is `c6_measurement`. -/
theorem c6_counterexample :
    Option.map Point.measurement (transform ⟨fun _ => none, 0, true⟩ (JVal.obj [])
        ⟨none, [], [], none⟩ ⟨"", "e", 1⟩) = some ""
    ∧ Option.map Point.measurement (transform ⟨fun _ => none, 0, true⟩ (JVal.obj [])
        ⟨some "", [], [], none⟩ ⟨"a.b", "e", 1⟩) = some "a_b" := by
  constructor
  · rfl
  · decide

/-- C6 (amended): the measurement name equals the subscription's override
when that override is present and non-empty; otherwise it is the routing
key with every `.` replaced by `_` (also when the override is present but
empty, since Python `or` treats the empty string as falsy).  It is
non-empty whenever the routing key is non-empty, but is empty when the
routing key is empty and no non-empty override is configured. -/
theorem c6_measurement (env : Env) (md : JVal) (cfg : TopicConfig) (m : Method) (p : Point)
    (hp : transform env md cfg m = some p) :
    p.measurement = measurementOf cfg m
    ∧ (∀ s, cfg.measurement = some s → s ≠ "" → p.measurement = s)
    ∧ (cfg.measurement = none → p.measurement = sanitize m.routingKey)
    ∧ (cfg.measurement = some "" → p.measurement = sanitize m.routingKey)
    ∧ (m.routingKey ≠ "" → p.measurement ≠ "") := by
  cases md with
  | obj kvs =>
      simp only [transform, Option.some.injEq] at hp
      subst hp
      refine ⟨rfl, ?_, ?_, ?_, ?_⟩
      · intro s hs hne
        simp [measurementOf, hs, hne]
      · intro hs
        simp [measurementOf, hs]
      · intro hs
        simp [measurementOf, hs]
      · intro hrk
        unfold measurementOf
        cases hcm : cfg.measurement with
        | none => exact sanitize_ne_empty _ hrk
        | some s =>
            by_cases hse : s = ""
            · simp only [hse, if_pos rfl]
              exact sanitize_ne_empty _ hrk
            · simp only [if_neg hse]
              exact hse
  | num x => simp [transform] at hp
  | jbool b => simp [transform] at hp
  | jstr s => simp [transform] at hp
  | jnull => simp [transform] at hp
  | arr xs => simp [transform] at hp

/-- Witness for `c6_measurement`: no override, routing key `a.b` — the
measurement is the sanitized routing key `a_b`, which is non-empty. -/
theorem c6_witness :
    transform ⟨fun _ => none, 0, true⟩ (JVal.obj []) ⟨none, [], [], none⟩ ⟨"a.b", "e", 1⟩
        = some ⟨"a_b", 0, [("routing_key", "a.b"), ("exchange", "e")], []⟩
    ∧ (⟨"a_b", 0, [("routing_key", "a.b"), ("exchange", "e")], []⟩ : Point).measurement
        = measurementOf ⟨none, [], [], none⟩ ⟨"a.b", "e", 1⟩ :=
  ⟨by decide,
    (c6_measurement ⟨fun _ => none, 0, true⟩ (JVal.obj []) ⟨none, [], [], none⟩ ⟨"a.b", "e", 1⟩
      ⟨"a_b", 0, [("routing_key", "a.b"), ("exchange", "e")], []⟩ (by decide)).1⟩

/-- C7: a string `timestamp` value is fed to the ISO-8601 parser
(`datetime.fromisoformat`) after every `Z` is replaced by `+00:00` — in
particular a trailing `Z` becomes the UTC offset `+00:00` (last conjunct);
on success the point's instant is the parsed value, and when parsing fails
the instant is the wall-clock instant captured at processing time. -/
theorem c7_string_timestamp (env : Env) (cfg : TopicConfig) (m : Method)
    (kvs : List (String × JVal)) (s : String) (p : Point)
    (hts : kvs.lookup "timestamp" = some (JVal.jstr s))
    (hp : transform env (JVal.obj kvs) cfg m = some p) :
    p.time = (env.iso (replaceZ s)).getD env.now
    ∧ (∀ v, env.iso (replaceZ s) = some v → p.time = v)
    ∧ (env.iso (replaceZ s) = none → p.time = env.now)
    ∧ (∀ l : List Char, (∀ c ∈ l, c ≠ 'Z') →
        replaceZ (String.mk (l ++ ['Z'])) = String.mk (l ++ "+00:00".data)) := by
  simp only [transform, Option.some.injEq] at hp
  subst hp
  refine ⟨by simp [timeOf, hts], ?_, ?_, ?_⟩
  · intro v h
    simp [timeOf, hts, h]
  · intro h
    simp [timeOf, hts, h]
  · intro l hl
    have hdata : (String.mk (l ++ ['Z'])).data = l ++ ['Z'] := rfl
    unfold replaceZ
    rw [hdata, List.flatMap_append, flatMap_zstep_id l hl]
    simp

/-- Witness for `c7_string_timestamp`: the timestamp string `2023Z` is
handed to the parser as `2023+00:00`; with a parser accepting exactly that
string at instant 99, the point's time is 99. -/
theorem c7_witness :
    ([("timestamp", JVal.jstr "2023Z")] : List (String × JVal)).lookup "timestamp"
        = some (JVal.jstr "2023Z")
    ∧ transform ⟨fun u => if u = "2023+00:00" then some 99 else none, 0, true⟩
        (JVal.obj [("timestamp", JVal.jstr "2023Z")]) ⟨none, [], [], none⟩ ⟨"k", "e", 1⟩
        = some ⟨"k", 99, [("routing_key", "k"), ("exchange", "e")], []⟩
    ∧ (⟨"k", 99, [("routing_key", "k"), ("exchange", "e")], []⟩ : Point).time
        = (Option.getD ((fun u => if u = "2023+00:00" then some 99 else none) (replaceZ "2023Z")) 0) :=
  ⟨rfl, by decide,
    (c7_string_timestamp ⟨fun u => if u = "2023+00:00" then some 99 else none, 0, true⟩
      ⟨none, [], [], none⟩ ⟨"k", "e", 1⟩ [("timestamp", JVal.jstr "2023Z")] "2023Z"
      ⟨"k", 99, [("routing_key", "k"), ("exchange", "e")], []⟩ rfl (by decide)).1⟩

/-- C8: the tag list starts from the subscription's static tags and then
sets `routing_key` and `exchange` last (main.py lines 229-236), so under
the dict's last-write-wins semantics those two tags are always present and
always carry the delivery's actual routing key and exchange, overriding
any same-named static tag. -/
theorem c8_tags (env : Env) (md : JVal) (cfg : TopicConfig) (m : Method) (p : Point)
    (hp : transform env md cfg m = some p) :
    p.tags = cfg.tags ++ [("routing_key", m.routingKey), ("exchange", m.exchange)]
    ∧ lastLookup p.tags "routing_key" = some m.routingKey
    ∧ lastLookup p.tags "exchange" = some m.exchange := by
  cases md with
  | obj kvs =>
      simp only [transform, Option.some.injEq] at hp
      subst hp
      refine ⟨rfl, ?_, ?_⟩
      · show lastLookup (tagsOf cfg m) "routing_key" = some m.routingKey
        unfold lastLookup tagsOf
        rw [lastMatch_append]
        simp [lastMatch]
      · show lastLookup (tagsOf cfg m) "exchange" = some m.exchange
        unfold lastLookup tagsOf
        rw [lastMatch_append]
        simp [lastMatch]
  | num x => simp [transform] at hp
  | jbool b => simp [transform] at hp
  | jstr s => simp [transform] at hp
  | jnull => simp [transform] at hp
  | arr xs => simp [transform] at hp

/-- Witness for `c8_tags`: a subscription with static tags `exchange=cfg`
and `site=lab`; the delivery's `routing_key`/`exchange` still win. -/
theorem c8_witness :
    transform ⟨fun _ => none, 0, true⟩ (JVal.obj [])
        ⟨none, [("exchange", "cfg"), ("site", "lab")], [], none⟩ ⟨"r.k", "real", 1⟩
        = some ⟨"r_k", 0, [("exchange", "cfg"), ("site", "lab"),
            ("routing_key", "r.k"), ("exchange", "real")], []⟩
    ∧ lastLookup (⟨"r_k", 0, [("exchange", "cfg"), ("site", "lab"),
          ("routing_key", "r.k"), ("exchange", "real")], []⟩ : Point).tags "exchange"
        = some "real" :=
  ⟨by decide,
    (c8_tags ⟨fun _ => none, 0, true⟩ (JVal.obj [])
      ⟨none, [("exchange", "cfg"), ("site", "lab")], [], none⟩ ⟨"r.k", "real", 1⟩
      ⟨"r_k", 0, [("exchange", "cfg"), ("site", "lab"),
        ("routing_key", "r.k"), ("exchange", "real")], []⟩ (by decide)).2.2⟩

/-- C9: the field list is the loop of main.py lines 241-254 — every
parsed-object entry except `timestamp`, renamed through the subscription's
field-rename map (identity if unmapped), numbers kept numeric, booleans
kept boolean, everything else stringified; and for each destination name,
the observable (last-write-wins) value is the one carried by the last
entry, in iteration order, mapping to that name — a later entry silently
overwrites an earlier one on collision. -/
theorem c9_fields (env : Env) (cfg : TopicConfig) (m : Method)
    (kvs : List (String × JVal)) (p : Point) (d : String)
    (hp : transform env (JVal.obj kvs) cfg m = some p) :
    p.fields = fieldsOf cfg kvs
    ∧ (∀ k, destName cfg k = (cfg.field_mapping.lookup k).getD k)
    ∧ (∀ x, fieldValue (JVal.num x) = FieldVal.fnum x)
    ∧ (∀ b, fieldValue (JVal.jbool b) = FieldVal.fbool b)
    ∧ (∀ s, fieldValue (JVal.jstr s) = FieldVal.fstr s)
    ∧ lastLookup p.fields d =
        lastMatch (fun kv => !(kv.1 == "timestamp") && (destName cfg kv.1 == d))
          (fun kv => fieldValue kv.2) kvs := by
  simp only [transform, Option.some.injEq] at hp
  subst hp
  exact ⟨rfl, fun k => rfl, fun x => rfl, fun b => rfl, fun s => rfl,
    lastLookup_fieldsOf cfg kvs d⟩

/-- Witness for `c9_fields`: rename map `temp → temperature` and an input
whose keys `temp` and `temperature` collide after renaming — the later
entry (the boolean) is the observable value of field `temperature`. -/
theorem c9_witness :
    transform ⟨fun _ => none, 0, true⟩
        (JVal.obj [("temp", JVal.num (PyNum.pint 10)), ("temperature", JVal.jbool true)])
        ⟨none, [], [("temp", "temperature")], none⟩ ⟨"x", "e", 1⟩
        = some ⟨"x", 0, [("routing_key", "x"), ("exchange", "e")],
            [("temperature", FieldVal.fnum (PyNum.pint 10)), ("temperature", FieldVal.fbool true)]⟩
    ∧ lastLookup (⟨"x", 0, [("routing_key", "x"), ("exchange", "e")],
          [("temperature", FieldVal.fnum (PyNum.pint 10)),
            ("temperature", FieldVal.fbool true)]⟩ : Point).fields "temperature"
        = lastMatch
            (fun kv => !(kv.1 == "timestamp")
              && (destName ⟨none, [], [("temp", "temperature")], none⟩ kv.1 == "temperature"))
            (fun kv => fieldValue kv.2)
            [("temp", JVal.num (PyNum.pint 10)), ("temperature", JVal.jbool true)] :=
  ⟨by decide,
    (c9_fields ⟨fun _ => none, 0, true⟩ ⟨none, [], [("temp", "temperature")], none⟩ ⟨"x", "e", 1⟩
      [("temp", JVal.num (PyNum.pint 10)), ("temperature", JVal.jbool true)]
      ⟨"x", 0, [("routing_key", "x"), ("exchange", "e")],
        [("temperature", FieldVal.fnum (PyNum.pint 10)), ("temperature", FieldVal.fbool true)]⟩
      "temperature" (by decide)).2.2.2.2.2⟩

/-- C10: a built point is written to the per-topic `influx_bucket`
override exactly when that override is a non-empty string; when the
override is absent (or YAML null) or the empty string, the write targets
the global default bucket — an empty-string override is silently ignored
under Python `or` truthiness (main.py line 190). -/
theorem c10_bucket (env : Env) (body : Body) (cfg : TopicConfig) (m : Method)
    (b : String) (md : JVal) (p : Point)
    (hparse : parseMessage body = Except.ok md)
    (hp : transform env md cfg m = some p) :
    messageCallback env body cfg m b =
      BrokerAction.write (chooseBucket cfg b) p ::
        (if env.writeOk then [BrokerAction.ack m.deliveryTag]
          else [BrokerAction.nack m.deliveryTag true])
    ∧ (cfg.influx_bucket = none → chooseBucket cfg b = b)
    ∧ (cfg.influx_bucket = some "" → chooseBucket cfg b = b)
    ∧ (∀ s, cfg.influx_bucket = some s → s ≠ "" → chooseBucket cfg b = s) := by
  refine ⟨by simp [messageCallback, hparse, hp], ?_, ?_, ?_⟩
  · intro h
    simp [chooseBucket, h]
  · intro h
    simp [chooseBucket, h]
  · intro s h hne
    simp [chooseBucket, h, hne]

/-- Witness for `c10_bucket`: a topic whose `influx_bucket` override is
the empty string — the write targets the global default bucket `defB`. -/
theorem c10_witness :
    parseMessage (Body.jsonOf (JVal.obj [])) = Except.ok (JVal.obj [])
    ∧ transform ⟨fun _ => none, 0, true⟩ (JVal.obj []) ⟨none, [], [], some ""⟩ ⟨"k", "e", 6⟩
        = some ⟨"k", 0, [("routing_key", "k"), ("exchange", "e")], []⟩
    ∧ chooseBucket ⟨none, [], [], some ""⟩ "defB" = "defB"
    ∧ messageCallback ⟨fun _ => none, 0, true⟩ (Body.jsonOf (JVal.obj []))
        ⟨none, [], [], some ""⟩ ⟨"k", "e", 6⟩ "defB"
        = BrokerAction.write (chooseBucket ⟨none, [], [], some ""⟩ "defB")
            ⟨"k", 0, [("routing_key", "k"), ("exchange", "e")], []⟩ ::
          (if (⟨fun _ => none, 0, true⟩ : Env).writeOk then [BrokerAction.ack 6]
            else [BrokerAction.nack 6 true]) :=
  ⟨rfl, by decide, by decide,
    (c10_bucket ⟨fun _ => none, 0, true⟩ (Body.jsonOf (JVal.obj [])) ⟨none, [], [], some ""⟩
      ⟨"k", "e", 6⟩ "defB" (JVal.obj [])
      ⟨"k", 0, [("routing_key", "k"), ("exchange", "e")], []⟩ rfl (by decide)).1⟩
